import Mathlib

/-!
Verification of the arithmetic and request-dispatch behaviour of
src/api/index.py (a two-layer dense network for 28x28 digit images behind
an HTTP handler).  Matrices are embedded as Mathlib matrices over the real
numbers; NumPy float arithmetic is modelled by exact real arithmetic, and
np.exp by Real.exp.  Fallible Python operations (fancy indexing, reshape,
missing dictionary keys, JSON parse failures) are modelled with Option and
Except.  All definitions are translated from the Python source; line
numbers in the doc comments refer to src/api/index.py.
-/

noncomputable section

open Matrix

/-- NumPy broadcasting of an n-by-1 column over m columns, as used in
`W1.dot(X) + b1` (line 37), `W2.dot(A1) + b2` (line 39) and
`A2 - one_hot_Y` (line 57). -/
def broadcastCol {n m : ℕ} (b : Matrix (Fin n) (Fin 1) ℝ) : Matrix (Fin n) (Fin m) ℝ :=
  fun i _ => b i 0

/-- Lines 29-30: `ReLU(Z) = np.maximum(Z, 0)`, the elementwise maximum with 0. -/
def ReLU {n m : ℕ} (Z : Matrix (Fin n) (Fin m) ℝ) : Matrix (Fin n) (Fin m) ℝ :=
  fun i j => max (Z i j) 0

/-- Lines 32-34: `softmax(Z) = np.exp(Z) / np.sum(np.exp(Z))`.  `np.sum` with no
axis argument sums over every entry of the array, and there is no subtraction
of the maximum logit before exponentiation. -/
def softmax {n m : ℕ} (Z : Matrix (Fin n) (Fin m) ℝ) : Matrix (Fin n) (Fin m) ℝ :=
  fun i j => Real.exp (Z i j) / ∑ i', ∑ j', Real.exp (Z i' j')

/-- Lines 36-41: `forward_prop(W1, b1, W2, b2, X)` returns the tuple
`(Z1, A1, Z2, A2)` with `Z1 = W1.dot(X) + b1`, `A1 = ReLU(Z1)`,
`Z2 = W2.dot(A1) + b2`, `A2 = softmax(Z2)`.  It is a pure function: no
parameter or other state is written. -/
def forward_prop {hn d o m : ℕ}
    (W1 : Matrix (Fin hn) (Fin d) ℝ) (b1 : Matrix (Fin hn) (Fin 1) ℝ)
    (W2 : Matrix (Fin o) (Fin hn) ℝ) (b2 : Matrix (Fin o) (Fin 1) ℝ)
    (X : Matrix (Fin d) (Fin m) ℝ) :
    Matrix (Fin hn) (Fin m) ℝ × Matrix (Fin hn) (Fin m) ℝ ×
      Matrix (Fin o) (Fin m) ℝ × Matrix (Fin o) (Fin m) ℝ :=
  let Z1 := W1 * X + broadcastCol b1
  let A1 := ReLU Z1
  let Z2 := W2 * A1 + broadcastCol b2
  let A2 := softmax Z2
  (Z1, A1, Z2, A2)

/-- The scan semantics of `np.argmax` on a one-dimensional array: the index of
the first occurrence of the maximum value (a later entry replaces the current
best only when strictly greater).  The empty list never arises from a NumPy
array of positive length; 0 is returned for it. -/
def npArgmax : List ℝ → ℕ
  | [] => 0
  | [_] => 0
  | x :: y :: t =>
    if x < (y :: t).getD (npArgmax (y :: t)) 0 then npArgmax (y :: t) + 1 else 0

/-- Lines 43-44: `get_predictions(A2) = np.argmax(A2, 0)`, the argmax of each
column of `A2` along the class axis. -/
def get_predictions {n m : ℕ} (A2 : Matrix (Fin n) (Fin m) ℝ) : Fin m → ℕ :=
  fun j => npArgmax (List.ofFn fun i => A2 i j)

/-- Lines 46-47: `ReLU_deriv(Z) = Z > 0`, a boolean array which NumPy promotes
to 1.0/0.0 when multiplied with a float array (line 60); it is embedded
directly as that 0/1 real matrix. -/
def ReLU_deriv {n m : ℕ} (Z : Matrix (Fin n) (Fin m) ℝ) : Matrix (Fin n) (Fin m) ℝ :=
  fun i j => if 0 < Z i j then 1 else 0

/-- Lines 49-52: `one_hot(Y)` builds `np.zeros((10, 1))` and executes
`one_hot_Y[Y] = 1`.  Python/NumPy integer indexing accepts -10..9 on an axis
of size 10, a negative index `Y` standing for row `Y + 10`; any other integer
raises IndexError, modelled by `none`. -/
def one_hot (Y : ℤ) : Option (Matrix (Fin 10) (Fin 1) ℝ) :=
  if -10 ≤ Y ∧ Y < 10 then
    some (fun i _ => if (i : ℤ) = (if Y < 0 then Y + 10 else Y) then 1 else 0)
  else none

/-- `np.sum(M, axis=1, keepdims=True)` (lines 59 and 62): the row sums kept as
an n-by-1 column. -/
def rowSums {n m : ℕ} (M : Matrix (Fin n) (Fin m) ℝ) : Matrix (Fin n) (Fin 1) ℝ :=
  fun i _ => ∑ j, M i j

/-- Lines 54-63: `backward_prop(Z1, A1, Z2, A2, W1, W2, X, Y)` with
`m = X.shape[1]`.  `one_hot` can raise IndexError, hence the Option result;
`Z2` and `W1` are taken as arguments but never used, exactly as in the
source.  No parameter is written: the gradients are returned. -/
def backward_prop {hn m : ℕ}
    (Z1 A1 : Matrix (Fin hn) (Fin m) ℝ) (Z2 A2 : Matrix (Fin 10) (Fin m) ℝ)
    (W1 : Matrix (Fin hn) (Fin 784) ℝ) (W2 : Matrix (Fin 10) (Fin hn) ℝ)
    (X : Matrix (Fin 784) (Fin m) ℝ) (Y : ℤ) :
    Option (Matrix (Fin hn) (Fin 784) ℝ × Matrix (Fin hn) (Fin 1) ℝ ×
      Matrix (Fin 10) (Fin hn) ℝ × Matrix (Fin 10) (Fin 1) ℝ) :=
  match one_hot Y with
  | none => none
  | some one_hot_Y =>
    let dZ2 : Matrix (Fin 10) (Fin m) ℝ := A2 - broadcastCol one_hot_Y
    let dW2 := (1 / (m : ℝ)) • (dZ2 * A1ᵀ)
    let db2 := (1 / (m : ℝ)) • rowSums dZ2
    let dZ1 : Matrix (Fin hn) (Fin m) ℝ :=
      fun i j => (W2ᵀ * dZ2) i j * ReLU_deriv Z1 i j
    let dW1 := (1 / (m : ℝ)) • (dZ1 * Xᵀ)
    let db1 := (1 / (m : ℝ)) • rowSums dZ1
    some (dW1, db1, dW2, db2)

/-- Lines 65-70: `update_params` returns the four tensors
`param - alpha * grad`; the Python rebinding of its local names mutates
nothing outside the function. -/
def update_params {hn : ℕ}
    (W1 : Matrix (Fin hn) (Fin 784) ℝ) (b1 : Matrix (Fin hn) (Fin 1) ℝ)
    (W2 : Matrix (Fin 10) (Fin hn) ℝ) (b2 : Matrix (Fin 10) (Fin 1) ℝ)
    (dW1 : Matrix (Fin hn) (Fin 784) ℝ) (db1 : Matrix (Fin hn) (Fin 1) ℝ)
    (dW2 : Matrix (Fin 10) (Fin hn) ℝ) (db2 : Matrix (Fin 10) (Fin 1) ℝ)
    (alpha : ℝ) :
    Matrix (Fin hn) (Fin 784) ℝ × Matrix (Fin hn) (Fin 1) ℝ ×
      Matrix (Fin 10) (Fin hn) ℝ × Matrix (Fin 10) (Fin 1) ℝ :=
  (W1 - alpha • dW1, b1 - alpha • db1, W2 - alpha • dW2, b2 - alpha • db2)

/-- The four process-wide parameter tensors (lines 24-27); the hidden size
`hn` is implied by the loaded data. -/
structure Params (hn : ℕ) where
  W1 : Matrix (Fin hn) (Fin 784) ℝ
  b1 : Matrix (Fin hn) (Fin 1) ℝ
  W2 : Matrix (Fin 10) (Fin hn) ℝ
  b2 : Matrix (Fin 10) (Fin 1) ℝ

/-- A parsed request body: the `image` and `label` fields of the JSON object
when present (`int(body[...])` conversion included for `label`). -/
structure ReqBody where
  image : Option (List ℝ)
  label : Option ℤ

/-- A request event: its `path` and the result of `json.loads(event[...])`
on its body (`Except.error` = the parse raised, line 90/107). -/
structure ApiEvent where
  path : String
  body : Except String ReqBody

/-- The JSON bodies the handler produces (lines 102, 123, 130, 143). -/
inductive ApiBody : Type where
  | prediction : ℕ → ApiBody
  | trained : ApiBody
  | notFound : ApiBody
  | failure : String → String → ApiBody

/-- A handler response: status code, header dictionary and body.  The 404
response dictionary has no headers key at all (lines 128-131), modelled by
the empty header list. -/
structure ApiResponse where
  statusCode : ℕ
  headers : List (String × String)
  body : ApiBody

/-- The header dictionary attached to every 200 and 500 response
(lines 98-101, 119-122, 139-142). -/
def jsonHeaders : List (String × String) :=
  [("Content-Type", "application/json"), ("Access-Control-Allow-Origin", "*")]

/-- Lines 133-144: the generic `except Exception` response, status 500 with
the error description and `traceback.format_exc()` in the body. -/
def err500 (e : String) : ApiResponse :=
  ⟨500, jsonHeaders, .failure e ("Traceback (most recent call last): " ++ e)⟩

/-- Lines 127-131: the response for any unrecognised path. -/
def notFound404 : ApiResponse :=
  ⟨404, [], .notFound⟩

/-- Line 91/108: `np.array(body[...]).reshape(784, 1) / 255.0`; reshape
raises unless the list has exactly 784 entries. -/
def toImage (l : List ℝ) : Option (Matrix (Fin 784) (Fin 1) ℝ) :=
  if l.length = 784 then some (fun i _ => l.getD (i : ℕ) 0 / 255) else none

/-- Line 115 in structure form: the state the `global` statement rebinds,
namely `update_params` of the current parameters and gradients at the given
learning rate. -/
def applyUpdate {hn : ℕ} (st : Params hn)
    (g : Matrix (Fin hn) (Fin 784) ℝ × Matrix (Fin hn) (Fin 1) ℝ ×
      Matrix (Fin 10) (Fin hn) ℝ × Matrix (Fin 10) (Fin 1) ℝ)
    (alpha : ℝ) : Params hn :=
  let u := update_params st.W1 st.b1 st.W2 st.b2 g.1 g.2.1 g.2.2.1 g.2.2.2 alpha
  ⟨u.1, u.2.1, u.2.2.1, u.2.2.2⟩

/-- Lines 89-104: the predict branch.  Each Python exception point (body
parse, missing `image` key, reshape) is a branch ending in the
`except Exception` response; on success the argmax of column 0 of `A2` is
returned with status 200.  The parameter state is only read. -/
def predictRoute {hn : ℕ} (st : Params hn) (body : Except String ReqBody) : ApiResponse :=
  match body with
  | .error e => err500 e
  | .ok b =>
    match b.image with
    | none => err500 "KeyError: image"
    | some img =>
      match toImage img with
      | none => err500 "ValueError: cannot reshape array to shape 784 by 1"
      | some X =>
        ⟨200, jsonHeaders,
          .prediction (get_predictions (forward_prop st.W1 st.b1 st.W2 st.b2 X).2.2.2 0)⟩

/-- Lines 106-125: the train branch.  Exception points in source order: body
parse, missing `image` key, reshape, missing/unconvertible `label`, then the
IndexError `one_hot` can raise inside `backward_prop`.  On success the new
parameter state is `update_params` at learning rate 0.1 (line 115) and the
response is status 200. -/
def trainRoute {hn : ℕ} (st : Params hn) (body : Except String ReqBody) :
    ApiResponse × Params hn :=
  match body with
  | .error e => (err500 e, st)
  | .ok b =>
    match b.image with
    | none => (err500 "KeyError: image", st)
    | some img =>
      match toImage img with
      | none => (err500 "ValueError: cannot reshape array to shape 784 by 1", st)
      | some X =>
        match b.label with
        | none => (err500 "KeyError: label", st)
        | some lbl =>
          let fp := forward_prop st.W1 st.b1 st.W2 st.b2 X
          match backward_prop fp.1 fp.2.1 fp.2.2.1 fp.2.2.2 st.W1 st.W2 X lbl with
          | none => (err500 "IndexError: index out of bounds for axis 0 with size 10", st)
          | some g => (⟨200, jsonHeaders, .trained⟩, applyUpdate st g (0.1 : ℝ))

/-- Lines 81-144: `handler(event, context)` as a function from the event and
the current process-wide parameter state to the response and the next
parameter state (the diagnostic prints are pure observability and are not
modelled). -/
def handler {hn : ℕ} (ev : ApiEvent) (st : Params hn) : ApiResponse × Params hn :=
  if ev.path = "/api/predict" then (predictRoute st ev.body, st)
  else if ev.path = "/api/train" then trainRoute st ev.body
  else (notFound404, st)

/-- The outcome of the line 13-22 try block: either `model_params` was bound,
or one of the three except clauses ran (file missing, invalid JSON, other
load failure), each of which only logs. -/
inductive LoadOutcome (P : Type) : Type where
  | success : P → LoadOutcome P
  | fileNotFound : LoadOutcome P
  | invalidJson : LoadOutcome P
  | otherFailure : String → LoadOutcome P

/-- Lines 13-27 of module start: after the try block, lines 24-27 evaluate
`np.array(model_params[...])` unconditionally.  When any except clause ran,
`model_params` was never bound, so line 24 raises an unhandled NameError and
module import — process start — fails (`Except.error`). -/
def moduleInit {P : Type} (load : LoadOutcome P) : Except String P :=
  match load with
  | .success mp => .ok mp
  | .fileNotFound => .error "NameError: name model_params is not defined"
  | .invalidJson => .error "NameError: name model_params is not defined"
  | .otherFailure _ => .error "NameError: name model_params is not defined"

end

lemma npArgmax_lt_length : ∀ l : List ℝ, l ≠ [] → npArgmax l < l.length := by
  intro l
  induction l with
  | nil => intro h; exact absurd rfl h
  | cons x t ih =>
    intro _
    cases t with
    | nil => simp [npArgmax]
    | cons y t' =>
      by_cases hx : x < (y :: t').getD (npArgmax (y :: t')) 0
      · have h1 : npArgmax (y :: t') < (y :: t').length := ih (by simp)
        simp only [List.length_cons] at h1
        simp only [npArgmax, if_pos hx, List.length_cons]
        omega
      · simp only [npArgmax, if_neg hx, List.length_cons]
        omega

lemma npArgmax_getD_le : ∀ (l : List ℝ) (k : ℕ), k < l.length →
    l.getD k 0 ≤ l.getD (npArgmax l) 0 := by
  intro l
  induction l with
  | nil => intro k hk; simp at hk
  | cons x t ih =>
    intro k hk
    cases t with
    | nil =>
      have hk0 : k = 0 := by simpa using Nat.lt_one_iff.mp (by simpa using hk)
      subst hk0
      simp [npArgmax]
    | cons y t' =>
      by_cases hx : x < (y :: t').getD (npArgmax (y :: t')) 0
      · simp only [npArgmax, if_pos hx, List.getD_cons_succ]
        cases k with
        | zero => simpa using le_of_lt hx
        | succ j =>
          simp only [List.getD_cons_succ]
          exact ih j (by simpa using hk)
      · simp only [npArgmax, if_neg hx, List.getD_cons_zero]
        cases k with
        | zero => simp
        | succ j =>
          simp only [List.getD_cons_succ]
          exact le_trans (ih j (by simpa using hk)) (not_lt.mp hx)

lemma npArgmax_first : ∀ (l : List ℝ) (k : ℕ), k < npArgmax l →
    l.getD k 0 < l.getD (npArgmax l) 0 := by
  intro l
  induction l with
  | nil => intro k hk; simp [npArgmax] at hk
  | cons x t ih =>
    intro k hk
    cases t with
    | nil => simp [npArgmax] at hk
    | cons y t' =>
      by_cases hx : x < (y :: t').getD (npArgmax (y :: t')) 0
      · simp only [npArgmax, if_pos hx, List.getD_cons_succ] at hk ⊢
        cases k with
        | zero => simpa using hx
        | succ j =>
          simp only [List.getD_cons_succ]
          exact ih j (by omega)
      · simp only [npArgmax, if_neg hx] at hk
        omega

lemma getD_ofFn {n : ℕ} (f : Fin n → ℝ) (k : ℕ) (hk : k < n) :
    (List.ofFn f).getD k 0 = f ⟨k, hk⟩ := by
  have hk' : k < (List.ofFn f).length := by simpa using hk
  rw [List.getD_eq_getElem (List.ofFn f) 0 hk', List.getElem_ofFn]

/-- C1: for every parameter set and 784-by-1 image column X, forward
propagation returns exactly the four tensors Z1 = W1·X + b1,
A1 = ReLU(Z1) (elementwise max with 0), Z2 = W2·A1 + b2 and
A2 = softmax(Z2) = exp(Z2) / sum of exp(Z2) over the 10 output entries,
with no subtraction of the maximum logit; `forward_prop` is a pure Lean
function, so it has no side effect on the parameters or any other state. -/
theorem c1_forward_prop_exact {hn : ℕ}
    (W1 : Matrix (Fin hn) (Fin 784) ℝ) (b1 : Matrix (Fin hn) (Fin 1) ℝ)
    (W2 : Matrix (Fin 10) (Fin hn) ℝ) (b2 : Matrix (Fin 10) (Fin 1) ℝ)
    (X : Matrix (Fin 784) (Fin 1) ℝ) :
    (∀ i j, (forward_prop W1 b1 W2 b2 X).1 i j = (∑ k, W1 i k * X k j) + b1 i 0) ∧
    (∀ i j, (forward_prop W1 b1 W2 b2 X).2.1 i j =
      max ((forward_prop W1 b1 W2 b2 X).1 i j) 0) ∧
    (∀ i j, (forward_prop W1 b1 W2 b2 X).2.2.1 i j =
      (∑ k, W2 i k * (forward_prop W1 b1 W2 b2 X).2.1 k j) + b2 i 0) ∧
    (∀ i j, (forward_prop W1 b1 W2 b2 X).2.2.2 i j =
      Real.exp ((forward_prop W1 b1 W2 b2 X).2.2.1 i j) /
        ∑ i' : Fin 10, Real.exp ((forward_prop W1 b1 W2 b2 X).2.2.1 i' 0)) := by
  refine ⟨?_, ?_, ?_, ?_⟩
  · intro i j
    simp [forward_prop, broadcastCol, Matrix.add_apply, Matrix.mul_apply]
  · intro i j
    simp [forward_prop, ReLU]
  · intro i j
    simp [forward_prop, broadcastCol, Matrix.add_apply, Matrix.mul_apply]
  · intro i j
    have hj : j = 0 := Subsingleton.elim j 0
    subst hj
    simp only [forward_prop, softmax]
    congr 1
    exact Finset.sum_congr rfl fun i' _ => Fin.sum_univ_one _

/-- C8: the softmax of any finite real input vector (any nonempty column) sums
to 1 over its entries; exact in the real-number embedding. -/
theorem c8_softmax_sums_to_one {n : ℕ} (Z : Matrix (Fin (n + 1)) (Fin 1) ℝ) :
    ∑ i, softmax Z i 0 = 1 := by
  have hcollapse : (∑ i', ∑ j' : Fin 1, Real.exp (Z i' j')) = ∑ i', Real.exp (Z i' 0) :=
    Finset.sum_congr rfl fun i' _ => Fin.sum_univ_one _
  have hpos : 0 < ∑ i', Real.exp (Z i' 0) :=
    Finset.sum_pos (fun i _ => Real.exp_pos _) Finset.univ_nonempty
  simp only [softmax, hcollapse]
  rw [← Finset.sum_div, div_self (ne_of_gt hpos)]

/-- C4: for every 10-by-1 output distribution A2, the prediction is the index
in [0, 9] of the maximum entry of A2, and when several entries are equal to
the maximum the lowest such index is returned (every strictly earlier entry
is strictly below the maximum). -/
theorem c4_get_predictions_argmax (A2 : Matrix (Fin 10) (Fin 1) ℝ) :
    ∃ p : Fin 10, get_predictions A2 0 = (p : ℕ) ∧
      (∀ i : Fin 10, A2 i 0 ≤ A2 p 0) ∧
      (∀ i : Fin 10, (i : ℕ) < (p : ℕ) → A2 i 0 < A2 p 0) := by
  have hne : (List.ofFn fun i : Fin 10 => A2 i 0) ≠ [] := by simp
  have hlt : npArgmax (List.ofFn fun i : Fin 10 => A2 i 0) < 10 := by
    have h := npArgmax_lt_length (List.ofFn fun i : Fin 10 => A2 i 0) hne
    simpa using h
  refine ⟨⟨npArgmax (List.ofFn fun i : Fin 10 => A2 i 0), hlt⟩, rfl, ?_, ?_⟩
  · intro i
    have h := npArgmax_getD_le (List.ofFn fun i' : Fin 10 => A2 i' 0) (i : ℕ) (by simp)
    rw [getD_ofFn _ _ i.isLt, getD_ofFn _ _ hlt] at h
    simpa using h
  · intro i hi
    have h := npArgmax_first (List.ofFn fun i' : Fin 10 => A2 i' 0) (i : ℕ) hi
    rw [getD_ofFn _ _ i.isLt, getD_ofFn _ _ hlt] at h
    simpa using h

lemma predictRoute_cases {hn : ℕ} (st : Params hn) (body : Except String ReqBody) :
    (∃ e, predictRoute st body = err500 e) ∨
      ∃ k, predictRoute st body = ⟨200, jsonHeaders, .prediction k⟩ := by
  rcases body with e | ⟨img?, lbl?⟩
  · exact .inl ⟨e, rfl⟩
  · rcases img? with _ | img
    · exact .inl ⟨_, rfl⟩
    · rcases h : toImage img with _ | X
      · refine .inl ⟨"ValueError: cannot reshape array to shape 784 by 1", ?_⟩
        simp [predictRoute, h]
      · refine .inr ⟨get_predictions (forward_prop st.W1 st.b1 st.W2 st.b2 X).2.2.2 0, ?_⟩
        simp [predictRoute, h]

lemma trainRoute_cases {hn : ℕ} (st : Params hn) (body : Except String ReqBody) :
    (∃ e, trainRoute st body = (err500 e, st)) ∨
      ∃ g, trainRoute st body = (⟨200, jsonHeaders, .trained⟩, applyUpdate st g (0.1 : ℝ)) := by
  rcases body with e | ⟨img?, lbl?⟩
  · exact .inl ⟨e, rfl⟩
  · rcases img? with _ | img
    · exact .inl ⟨_, rfl⟩
    · rcases h : toImage img with _ | X
      · refine .inl ⟨"ValueError: cannot reshape array to shape 784 by 1", ?_⟩
        simp [trainRoute, h]
      · rcases lbl? with _ | lbl
        · refine .inl ⟨"KeyError: label", ?_⟩
          simp [trainRoute, h]
        · rcases hb : backward_prop (forward_prop st.W1 st.b1 st.W2 st.b2 X).1
              (forward_prop st.W1 st.b1 st.W2 st.b2 X).2.1
              (forward_prop st.W1 st.b1 st.W2 st.b2 X).2.2.1
              (forward_prop st.W1 st.b1 st.W2 st.b2 X).2.2.2 st.W1 st.W2 X lbl with _ | g
          · refine .inl ⟨"IndexError: index out of bounds for axis 0 with size 10", ?_⟩
            simp [trainRoute, h, hb]
          · refine .inr ⟨g, ?_⟩
            simp [trainRoute, h, hb]

/-- C3: the parameter update computes param − α·grad elementwise for each of
the four tensors; with α = 0 it returns all four parameters unchanged; and
the caller fixes α at 0.1: whenever the train branch produces a new state at
all, that state is the update of the old parameters at rate 0.1. -/
theorem c3_update_params_spec {hn : ℕ}
    (W1 dW1 : Matrix (Fin hn) (Fin 784) ℝ) (b1 db1 : Matrix (Fin hn) (Fin 1) ℝ)
    (W2 dW2 : Matrix (Fin 10) (Fin hn) ℝ) (b2 db2 : Matrix (Fin 10) (Fin 1) ℝ)
    (alpha : ℝ) (st : Params hn) (body : Except String ReqBody) :
    (∀ i j, (update_params W1 b1 W2 b2 dW1 db1 dW2 db2 alpha).1 i j
        = W1 i j - alpha * dW1 i j) ∧
    (∀ i j, (update_params W1 b1 W2 b2 dW1 db1 dW2 db2 alpha).2.1 i j
        = b1 i j - alpha * db1 i j) ∧
    (∀ i j, (update_params W1 b1 W2 b2 dW1 db1 dW2 db2 alpha).2.2.1 i j
        = W2 i j - alpha * dW2 i j) ∧
    (∀ i j, (update_params W1 b1 W2 b2 dW1 db1 dW2 db2 alpha).2.2.2 i j
        = b2 i j - alpha * db2 i j) ∧
    update_params W1 b1 W2 b2 dW1 db1 dW2 db2 0 = (W1, b1, W2, b2) ∧
    ((trainRoute st body).2 = st ∨
      ∃ g, (trainRoute st body).2 = applyUpdate st g (0.1 : ℝ)) := by
  refine ⟨?_, ?_, ?_, ?_, ?_, ?_⟩
  · intro i j
    simp [update_params, Matrix.sub_apply, Matrix.smul_apply]
  · intro i j
    simp [update_params, Matrix.sub_apply, Matrix.smul_apply]
  · intro i j
    simp [update_params, Matrix.sub_apply, Matrix.smul_apply]
  · intro i j
    simp [update_params, Matrix.sub_apply, Matrix.smul_apply]
  · simp [update_params]
  · rcases trainRoute_cases st body with ⟨e, he⟩ | ⟨g, hg⟩
    · exact .inl (by rw [he])
    · exact .inr ⟨g, by rw [hg]⟩

/-- C5: handling a predict request reads but never writes the parameter
state, and the replacement performed by a successful train request (the new
state being the 0.1-rate update of the old one) is the only state change the
handler ever makes. -/
theorem c5_handler_frame {hn : ℕ} (ev : ApiEvent) (st : Params hn) :
    (ev.path = "/api/predict" → (handler ev st).2 = st) ∧
    (ev.path ≠ "/api/train" → (handler ev st).2 = st) ∧
    ((handler ev st).2 = st ∨
      (ev.path = "/api/train" ∧ (handler ev st).1 = ⟨200, jsonHeaders, .trained⟩ ∧
        ∃ g, (handler ev st).2 = applyUpdate st g (0.1 : ℝ))) := by
  by_cases hp : ev.path = "/api/predict"
  · have hh : handler ev st = (predictRoute st ev.body, st) := by simp [handler, hp]
    exact ⟨fun _ => by rw [hh], fun _ => by rw [hh], .inl (by rw [hh])⟩
  · by_cases ht : ev.path = "/api/train"
    · have hh : handler ev st = trainRoute st ev.body := by simp [handler, hp, ht]
      rcases trainRoute_cases st ev.body with ⟨e, he⟩ | ⟨g, hg⟩
      · exact ⟨fun h => absurd h hp, fun h => absurd ht h, .inl (by rw [hh, he])⟩
      · exact ⟨fun h => absurd h hp, fun h => absurd ht h,
          .inr ⟨ht, by rw [hh, hg], ⟨g, by rw [hh, hg]⟩⟩⟩
    · have hh : handler ev st = (notFound404, st) := by simp [handler, hp, ht]
      exact ⟨fun h => absurd h hp, fun _ => by rw [hh], .inl (by rw [hh])⟩

/-- C6: dispatch on the path yields exactly one of three outcomes: an unknown
path yields the 404 not-found response (with the state untouched), and status
404 occurs precisely for unknown paths, never for a pipeline failure; every
other outcome is either a 200 success or the generic 500 failure `err500`,
whose body carries the error description together with a traceback.  The
handler is a pure function of the single event: nothing is retried. -/
theorem c6_dispatch_trichotomy {hn : ℕ} (ev : ApiEvent) (st : Params hn) :
    ((ev.path ≠ "/api/predict" ∧ ev.path ≠ "/api/train") →
      handler ev st = (notFound404, st)) ∧
    ((handler ev st).1.statusCode = 404 ↔
      (ev.path ≠ "/api/predict" ∧ ev.path ≠ "/api/train")) ∧
    ((handler ev st).1.statusCode = 200 ∨ (handler ev st).1 = notFound404 ∨
      ∃ e, (handler ev st).1 = err500 e) := by
  by_cases hp : ev.path = "/api/predict"
  · have hh : (handler ev st).1 = predictRoute st ev.body := by simp [handler, hp]
    rcases predictRoute_cases st ev.body with ⟨e, he⟩ | ⟨k, hk2⟩
    · refine ⟨fun h => absurd hp h.1, ?_, .inr (.inr ⟨e, by rw [hh, he]⟩)⟩
      constructor
      · intro h404
        rw [hh, he] at h404
        simp [err500] at h404
      · intro h
        exact absurd hp h.1
    · refine ⟨fun h => absurd hp h.1, ?_, .inl (by rw [hh, hk2])⟩
      constructor
      · intro h404
        rw [hh, hk2] at h404
        simp at h404
      · intro h
        exact absurd hp h.1
  · by_cases ht : ev.path = "/api/train"
    · have hh : (handler ev st).1 = (trainRoute st ev.body).1 := by simp [handler, hp, ht]
      rcases trainRoute_cases st ev.body with ⟨e, he⟩ | ⟨g, hg⟩
      · refine ⟨fun h => absurd ht h.2, ?_, .inr (.inr ⟨e, by rw [hh, he]⟩)⟩
        constructor
        · intro h404
          rw [hh, he] at h404
          simp [err500] at h404
        · intro h
          exact absurd ht h.2
      · refine ⟨fun h => absurd ht h.2, ?_, .inl (by rw [hh, hg])⟩
        constructor
        · intro h404
          rw [hh, hg] at h404
          simp at h404
        · intro h
          exact absurd ht h.2
    · have hh : handler ev st = (notFound404, st) := by simp [handler, hp, ht]
      refine ⟨fun _ => hh, ?_, .inr (.inl (by rw [hh]))⟩
      constructor
      · intro _
        exact ⟨hp, ht⟩
      · intro _
        rw [hh]
        rfl

/-- C9: every response of the predict and train routes, success (200) or
exception failure (500), carries the permissive cross-origin header and the
JSON content-type header, while the 404 not-found response carries neither
(its header list is empty). -/
theorem c9_response_headers {hn : ℕ} (ev : ApiEvent) (st : Params hn) :
    (("Content-Type", "application/json") ∈ jsonHeaders ∧
      ("Access-Control-Allow-Origin", "*") ∈ jsonHeaders) ∧
    ((handler ev st).1.statusCode = 200 ∨ (handler ev st).1.statusCode = 500 →
      (handler ev st).1.headers = jsonHeaders) ∧
    ((handler ev st).1.statusCode = 404 → (handler ev st).1.headers = []) := by
  refine ⟨⟨by simp [jsonHeaders], by simp [jsonHeaders]⟩, ?_, ?_⟩
  · by_cases hp : ev.path = "/api/predict"
    · have hh : (handler ev st).1 = predictRoute st ev.body := by simp [handler, hp]
      rcases predictRoute_cases st ev.body with ⟨e, he⟩ | ⟨k, hk2⟩
      · intro _
        rw [hh, he]
        rfl
      · intro _
        rw [hh, hk2]
    · by_cases ht : ev.path = "/api/train"
      · have hh : (handler ev st).1 = (trainRoute st ev.body).1 := by
          simp [handler, hp, ht]
        rcases trainRoute_cases st ev.body with ⟨e, he⟩ | ⟨g, hg⟩
        · intro _
          rw [hh, he]
          rfl
        · intro _
          rw [hh, hg]
      · have hh : (handler ev st).1 = notFound404 := by simp [handler, hp, ht]
        intro h
        rw [hh] at h
        simp [notFound404] at h
  · by_cases hp : ev.path = "/api/predict"
    · have hh : (handler ev st).1 = predictRoute st ev.body := by simp [handler, hp]
      rcases predictRoute_cases st ev.body with ⟨e, he⟩ | ⟨k, hk2⟩
      · intro h404
        rw [hh, he] at h404
        simp [err500] at h404
      · intro h404
        rw [hh, hk2] at h404
        simp at h404
    · by_cases ht : ev.path = "/api/train"
      · have hh : (handler ev st).1 = (trainRoute st ev.body).1 := by
          simp [handler, hp, ht]
        rcases trainRoute_cases st ev.body with ⟨e, he⟩ | ⟨g, hg⟩
        · intro h404
          rw [hh, he] at h404
          simp [err500] at h404
        · intro h404
          rw [hh, hg] at h404
          simp at h404
      · have hh : (handler ev st).1 = notFound404 := by simp [handler, hp, ht]
        intro _
        rw [hh]
        rfl

/-- C7: the code diverges from the claim.  When the model-parameter source is
missing or malformed, the except clause only logs, but module start then
dereferences the unbound `model_params` (line 24), so process start itself
fails with an unhandled NameError rather than coming up with an undefined
parameter state for later requests to trip over. -/
theorem c7_startup_is_fatal :
    moduleInit (LoadOutcome.fileNotFound : LoadOutcome Unit) =
      Except.error "NameError: name model_params is not defined" ∧
    moduleInit (LoadOutcome.invalidJson : LoadOutcome Unit) =
      Except.error "NameError: name model_params is not defined" :=
  ⟨rfl, rfl⟩

/-- C2: for every forward-pass result, parameters, image X with m columns and
label Y in [0, 9], backward propagation returns exactly the gradients built
from dZ2 = A2 − one_hot(Y) and dZ1 = (W2ᵀ·dZ2) elementwise-times the
indicator of Z1 > 0, namely dW2 = (1/m)·dZ2·A1ᵀ, db2 = (1/m)·(sum of dZ2
over the sample axis), dW1 = (1/m)·dZ1·Xᵀ and db1 = (1/m)·(sum of dZ1 over
the sample axis); the Lean result type forces (dW1, db1, dW2, db2) to the
shapes of (W1, b1, W2, b2), and the function is pure, so no parameter is
mutated. -/
theorem c2_backward_prop_exact {hn m : ℕ}
    (Z1 A1 : Matrix (Fin hn) (Fin m) ℝ) (Z2 A2 : Matrix (Fin 10) (Fin m) ℝ)
    (W1 : Matrix (Fin hn) (Fin 784) ℝ) (W2 : Matrix (Fin 10) (Fin hn) ℝ)
    (X : Matrix (Fin 784) (Fin m) ℝ) (Y : Fin 10) :
    backward_prop Z1 A1 Z2 A2 W1 W2 X ((Y : ℕ) : ℤ) =
      some
        ((fun i j => (1 / (m : ℝ)) *
            ∑ k, ((∑ k', W2 k' i * (A2 k' k - if (k' : ℤ) = ((Y : ℕ) : ℤ) then 1 else 0)) *
              (if 0 < Z1 i k then 1 else 0)) * X j k),
         (fun i _ => (1 / (m : ℝ)) *
            ∑ j, (∑ k', W2 k' i * (A2 k' j - if (k' : ℤ) = ((Y : ℕ) : ℤ) then 1 else 0)) *
              (if 0 < Z1 i j then 1 else 0)),
         (fun i j => (1 / (m : ℝ)) *
            ∑ k, (A2 i k - if (i : ℤ) = ((Y : ℕ) : ℤ) then 1 else 0) * A1 j k),
         (fun i _ => (1 / (m : ℝ)) *
            ∑ j, (A2 i j - if (i : ℤ) = ((Y : ℕ) : ℤ) then 1 else 0))) := by
  have h0 : (0 : ℤ) ≤ ((Y : ℕ) : ℤ) := Int.natCast_nonneg _
  have h10 : ((Y : ℕ) : ℤ) < 10 := by exact_mod_cast Y.isLt
  have hcond : (-10 : ℤ) ≤ ((Y : ℕ) : ℤ) ∧ ((Y : ℕ) : ℤ) < 10 := ⟨by omega, h10⟩
  have hone : one_hot ((Y : ℕ) : ℤ) =
      some (fun (i : Fin 10) (_ : Fin 1) =>
        if (i : ℤ) = ((Y : ℕ) : ℤ) then (1 : ℝ) else 0) := by
    simp only [one_hot, if_pos hcond, if_neg (not_lt.mpr h0)]
  simp only [backward_prop, hone, Option.some.injEq, Prod.mk.injEq]
  refine ⟨?_, ?_, ?_, ?_⟩
  · funext i j
    simp [Matrix.smul_apply, smul_eq_mul, Matrix.mul_apply, Matrix.sub_apply,
      Matrix.transpose_apply, broadcastCol, ReLU_deriv]
  · funext i j
    simp [Matrix.smul_apply, smul_eq_mul, rowSums, Matrix.mul_apply, Matrix.sub_apply,
      Matrix.transpose_apply, broadcastCol, ReLU_deriv]
  · funext i j
    simp [Matrix.smul_apply, smul_eq_mul, Matrix.mul_apply, Matrix.sub_apply,
      Matrix.transpose_apply, broadcastCol]
  · funext i j
    simp [Matrix.smul_apply, smul_eq_mul, rowSums, Matrix.sub_apply, broadcastCol]

/-- C10: the train label is never validated against [0, 9].  `one_hot` raises
IndexError exactly when the integer label is at least 10 or below −10; for a
label Y in [−10, −1] it instead places its single 1 at index Y + 10, and a
train request with such a label succeeds with status 200 (silently training
the wrong class), while an out-of-range label surfaces as the 500 failure
outcome. -/
theorem c10_label_unvalidated {hn : ℕ} (st : Params hn) (img : List ℝ)
    (X : Matrix (Fin 784) (Fin 1) ℝ) (lbl : ℤ) :
    (one_hot lbl = none ↔ 10 ≤ lbl ∨ lbl < -10) ∧
    (-10 ≤ lbl → lbl < 0 →
      one_hot lbl = some (fun (i : Fin 10) (_ : Fin 1) =>
        if (i : ℤ) = lbl + 10 then (1 : ℝ) else 0)) ∧
    (toImage img = some X → 10 ≤ lbl ∨ lbl < -10 →
      trainRoute st (.ok ⟨some img, some lbl⟩) =
        (err500 "IndexError: index out of bounds for axis 0 with size 10", st)) ∧
    (toImage img = some X → -10 ≤ lbl → lbl < 0 →
      (trainRoute st (.ok ⟨some img, some lbl⟩)).1.statusCode = 200) := by
  refine ⟨?_, ?_, ?_, ?_⟩
  · by_cases hc : (-10 : ℤ) ≤ lbl ∧ lbl < 10
    · simp only [one_hot, if_pos hc]
      constructor
      · intro h
        simp at h
      · intro h
        exact absurd h (by omega)
    · simp only [one_hot, if_neg hc]
      constructor
      · intro _
        omega
      · intro _
        trivial
  · intro h1 h2
    have hc : (-10 : ℤ) ≤ lbl ∧ lbl < 10 := ⟨h1, by omega⟩
    simp only [one_hot, if_pos hc, if_pos h2]
  · intro hti hout
    have hnone : one_hot lbl = none := by
      simp only [one_hot]
      exact if_neg (by omega)
    have hbp : backward_prop (forward_prop st.W1 st.b1 st.W2 st.b2 X).1
        (forward_prop st.W1 st.b1 st.W2 st.b2 X).2.1
        (forward_prop st.W1 st.b1 st.W2 st.b2 X).2.2.1
        (forward_prop st.W1 st.b1 st.W2 st.b2 X).2.2.2 st.W1 st.W2 X lbl = none := by
      simp [backward_prop, hnone]
    simp [trainRoute, hti, hbp]
  · intro hti h1 h2
    have hc : (-10 : ℤ) ≤ lbl ∧ lbl < 10 := ⟨h1, by omega⟩
    have hsome : one_hot lbl = some (fun (i : Fin 10) (_ : Fin 1) =>
        if (i : ℤ) = lbl + 10 then (1 : ℝ) else 0) := by
      simp only [one_hot, if_pos hc, if_pos h2]
    have hiss : (backward_prop (forward_prop st.W1 st.b1 st.W2 st.b2 X).1
        (forward_prop st.W1 st.b1 st.W2 st.b2 X).2.1
        (forward_prop st.W1 st.b1 st.W2 st.b2 X).2.2.1
        (forward_prop st.W1 st.b1 st.W2 st.b2 X).2.2.2 st.W1 st.W2 X lbl).isSome := by
      simp [backward_prop, hsome]
    obtain ⟨g, hbp⟩ := Option.isSome_iff_exists.mp hiss
    simp [trainRoute, hti, hbp]
